/-
Verification of the DuggerLinkTools read-only Git inspector core.

Shallow embedding of:
  - duggerlink/utils/caching.py   (ttl_cache decorator)
  - duggerlink/git/operations.py  (GitOperations)
  - duggerlink/models/git.py      (GitState pydantic model)

The external `git` binary is abstracted as an environment mapping an
argument list to an outcome: either a completed process (return code,
stdout, stderr) or a raised exception (e.g. the binary or the working
directory is missing).  `subprocess.run` is called with `check=False`
throughout the inspector, so a non-zero exit status never raises.
Python strings are embedded as `String`/`List Char`; `time.time()`
values as exact rationals.
-/
import Mathlib

namespace Dugger

/-- Python `str.strip()` whitespace set (ASCII part). -/
def isPySpace (c : Char) : Bool :=
  c = ' ' || c = '\t' || c = '\n' || c = '\r' || c = '\x0b' || c = '\x0c'

/-- `str.strip()` on a character list. -/
def pyStripList (l : List Char) : List Char :=
  ((l.dropWhile isPySpace).reverse.dropWhile isPySpace).reverse

/-- Python `str.strip()`. -/
def pyStrip (s : String) : String :=
  ⟨pyStripList s.data⟩

/-- Python `str.splitlines()` worker: splits on `\r\n`, `\r`, `\n`;
no trailing empty line for a trailing terminator. -/
def splitLinesAux : List Char → List Char → List (List Char)
  | [], acc => if acc.isEmpty then [] else [acc.reverse]
  | '\r' :: '\n' :: rest, acc => acc.reverse :: splitLinesAux rest []
  | '\r' :: rest, acc => acc.reverse :: splitLinesAux rest []
  | '\n' :: rest, acc => acc.reverse :: splitLinesAux rest []
  | c :: rest, acc => splitLinesAux rest (c :: acc)

/-- Python `str.splitlines()`. -/
def splitLines (s : String) : List (List Char) :=
  splitLinesAux s.data []

/-- Python `str.lower()` (ASCII). -/
def pyLower (s : String) : String :=
  ⟨s.data.map Char.toLower⟩

/-- The characters accepted by `GitState.validate_commit_hash`
(`"0123456789abcdefABCDEF"`). -/
def isHexCharPy (c : Char) : Bool :=
  ("0123456789abcdefABCDEF".data).contains c

/-- `GitState.validate_commit_hash`: empty stays empty; a string of
length ≥ 7 made of hex characters is lower-cased; anything else
normalizes to the empty string. -/
def validate_commit_hash (value : String) : String :=
  if value = "" then ""
  else if 7 ≤ value.length ∧ value.data.all isHexCharPy then pyLower value
  else ""

/-- `GitState.validate_branch`: `"HEAD"` becomes `"detached"`, anything
else is stripped of surrounding whitespace. -/
def validate_branch (value : String) : String :=
  if value = "HEAD" then "detached" else pyStrip value

/-- `GitState.validate_untracked_files`: strip each entry, drop the ones
that strip to empty. -/
def validate_untracked_files (value : List String) : List String :=
  value.filterMap (fun f => if pyStrip f = "" then none else some (pyStrip f))

/-- Python `int(s)` on a stripped string: optional sign followed by at
least one decimal digit; `none` models a raised `ValueError`. -/
def pyInt : String → Option Int
  | s =>
    match s.data with
    | [] => none
    | '-' :: ds => if ds ≠ [] ∧ ds.all Char.isDigit
        then some (-(Int.ofNat (ds.foldl (fun n c => 10 * n + (c.toNat - 48)) 0)))
        else none
    | '+' :: ds => if ds ≠ [] ∧ ds.all Char.isDigit
        then some (Int.ofNat (ds.foldl (fun n c => 10 * n + (c.toNat - 48)) 0))
        else none
    | ds => if ds.all Char.isDigit
        then some (Int.ofNat (ds.foldl (fun n c => 10 * n + (c.toNat - 48)) 0))
        else none

/-- Result of `subprocess.run` with `capture_output=True, text=True`. -/
structure CmdResult where
  returncode : Int
  stdout : String
  stderr : String
deriving DecidableEq

/-- Outcome of `GitOperations._run_command`: either a completed process
(`check=False`, so a non-zero exit still completes), or an exception
(`DuggerToolError`, e.g. the git binary or the working directory is
missing). -/
inductive RunOutcome where
  | ok (r : CmdResult)
  | exn
deriving DecidableEq

/-- The external git binary for a fixed repository path, abstracted as a
map from the argument list (after `git`) to the run outcome. -/
def GitEnv : Type := List String → RunOutcome

/-- `GitOperations.get_current_branch` (producer body, modulo the TTL
cache which is modelled separately): strip stdout, `"unknown"` on an
exception. -/
def get_current_branch (env : GitEnv) : String :=
  match env ["rev-parse", "--abbrev-ref", "HEAD"] with
  | .ok r => pyStrip r.stdout
  | .exn => "unknown"

/-- `GitOperations.get_last_commit_hash`: strip stdout, empty on an
exception. -/
def get_last_commit_hash (env : GitEnv) : String :=
  match env ["rev-parse", "HEAD"] with
  | .ok r => pyStrip r.stdout
  | .exn => ""

/-- `GitOperations.is_dirty`: the status command (with
`--untracked-files=no` appended when `untracked_files` is false; the
Python default is `True`) has non-empty stripped stdout; false on an
exception. -/
def is_dirty (env : GitEnv) (untracked_files : Bool) : Bool :=
  let cmd := if untracked_files then ["status", "--porcelain"]
             else ["status", "--porcelain", "--untracked-files=no"]
  match env cmd with
  | .ok r => pyStrip r.stdout ≠ ""
  | .exn => false

/-- The parsing loop of `GitOperations.get_untracked_files`: for each
line, if the stripped line is non-empty and starts with `"??"`, append
`line.strip()[3:].strip()`. -/
def untrackedLoop : List (List Char) → List String
  | [] => []
  | line :: rest =>
    let s := pyStripList line
    if ¬ s.isEmpty ∧ ['?', '?'].isPrefixOf s
    then String.mk (pyStripList (s.drop 3)) :: untrackedLoop rest
    else untrackedLoop rest

/-- `GitOperations.get_untracked_files` applied to a given stdout. -/
def parseUntracked (stdout : String) : List String :=
  untrackedLoop (splitLines stdout)

/-- `GitOperations.get_untracked_files`: parse the porcelain status
output; empty list on an exception. -/
def get_untracked_files (env : GitEnv) : List String :=
  match env ["status", "--porcelain", "--untracked-files=normal"] with
  | .ok r => parseUntracked r.stdout
  | .exn => []

/-- `GitOperations.get_commit_count`: `int(result.stdout.strip() or 0)`;
0 when stdout strips to empty or `int()` raises, and 0 on an exception
from the run itself. -/
def get_commit_count (env : GitEnv) : Int :=
  match env ["rev-list", "HEAD", "--count"] with
  | .ok r =>
    let s := pyStrip r.stdout
    if s = "" then 0 else (pyInt s).getD 0
  | .exn => 0

/-- `GitOperations.get_remote_url`: stripped stdout when the process
exited 0, otherwise `None`; `None` on an exception. -/
def get_remote_url (env : GitEnv) (remote : String) : Option String :=
  match env ["remote", "get-url", remote] with
  | .ok r => if r.returncode = 0 then some (pyStrip r.stdout) else none
  | .exn => none

/-- `GitOperations.is_git_repository`: runs `rev-parse --git-dir` with
`check=False` and returns `True` unless the run raises.  The exit status
of the probe is not inspected. -/
def is_git_repository (env : GitEnv) : Bool :=
  match env ["rev-parse", "--git-dir"] with
  | .ok _ => true
  | .exn => false

/-- Values appearing in the summary mapping and fed to the `GitState`
model (the shapes this program actually produces or that the claims
exercise). -/
inductive PyVal where
  | vStr (s : String)
  | vInt (n : Int)
  | vBool (b : Bool)
  | vNone
  | vList (xs : List String)
  | vInst (addr : List Char)
deriving DecidableEq

/-- `GitOperations.get_git_summary`: the fixed "not a repository" record
when the probe fails, otherwise the seven fields assembled from the
individual queries. -/
def get_git_summary (env : GitEnv) : List (String × PyVal) :=
  if is_git_repository env = false then
    [("is_git_repo", .vBool false),
     ("branch", .vStr "none"),
     ("is_dirty", .vBool false),
     ("commit_hash", .vStr ""),
     ("untracked_files", .vList []),
     ("commit_count", .vInt 0),
     ("remote_url", .vNone)]
  else
    [("is_git_repo", .vBool true),
     ("branch", .vStr (get_current_branch env)),
     ("is_dirty", .vBool (is_dirty env true)),
     ("commit_hash", .vStr (get_last_commit_hash env)),
     ("untracked_files", .vList (get_untracked_files env)),
     ("commit_count", .vInt (get_commit_count env)),
     ("remote_url", match get_remote_url env "origin" with
                    | some u => .vStr u
                    | none => .vNone)]

/-- `duggerlink.models.git.GitState` after validation. -/
structure GitState where
  is_git_repo : Bool
  branch : String
  is_dirty : Bool
  commit_hash : String
  untracked_files : List String
  commit_count : Int
  remote_url : Option String
deriving DecidableEq

/-- `GitState.has_changes`: dirty or some untracked file. -/
def GitState.has_changes (s : GitState) : Bool :=
  s.is_dirty || !s.untracked_files.isEmpty

/-- `GitState.is_clean`. -/
def GitState.is_clean (s : GitState) : Bool :=
  !s.has_changes

/-- The seven declared field names of `GitState`
(`model_config` sets `extra="forbid"`). -/
def gitStateKeys : List String :=
  ["is_git_repo", "branch", "is_dirty", "commit_hash",
   "untracked_files", "commit_count", "remote_url"]

/-- First value bound to a key in the input mapping. -/
def lookupKey (raw : List (String × PyVal)) (k : String) : Option PyVal :=
  match raw.find? (fun kv => kv.1 == k) with
  | some kv => some kv.2
  | none => none

/-- Pydantic v2 lax validation of a `bool` field. -/
def parseBool : PyVal → Except String Bool
  | .vBool b => .ok b
  | .vInt 0 => .ok false
  | .vInt 1 => .ok true
  | .vStr s =>
    if (pyLower s) ∈ ["true", "t", "yes", "y", "on", "1"] then .ok true
    else if (pyLower s) ∈ ["false", "f", "no", "n", "off", "0"] then .ok false
    else .error "input should be a valid boolean"
  | _ => .error "input should be a valid boolean"

/-- Pydantic v2 lax validation of a `str` field (no int→str coercion). -/
def parseStr : PyVal → Except String String
  | .vStr s => .ok s
  | _ => .error "input should be a valid string"

/-- Pydantic v2 lax validation of an `int` field (numeric strings are
coerced; `bool` is rejected). -/
def parseInt : PyVal → Except String Int
  | .vInt n => .ok n
  | .vStr s =>
    match pyInt (pyStrip s) with
    | some n => .ok n
    | none => .error "input should be a valid integer"
  | _ => .error "input should be a valid integer"

/-- Pydantic v2 lax validation of a `list[str]` field. -/
def parseListStr : PyVal → Except String (List String)
  | .vList xs => .ok xs
  | _ => .error "input should be a valid list"

/-- Pydantic v2 lax validation of a `str | None` field. -/
def parseOptStr : PyVal → Except String (Option String)
  | .vNone => .ok none
  | .vStr s => .ok (some s)
  | _ => .error "input should be a valid string or None"

/-- Construction of `GitState` from a raw mapping, as pydantic performs
it: `extra="forbid"` rejects unknown keys; each present field is
type-validated (lax mode) and then passed through its field validator;
`commit_count` must additionally satisfy `ge=0`; absent fields take
their declared defaults (field validators do not run on defaults). -/
def mkGitState (raw : List (String × PyVal)) : Except String GitState := do
  if raw.any (fun kv => !(gitStateKeys.contains kv.1)) then
    throw "extra inputs are not permitted"
  let igr ← match lookupKey raw "is_git_repo" with
    | none => pure false
    | some v => parseBool v
  let branch ← match lookupKey raw "branch" with
    | none => pure "none"
    | some v => do pure (validate_branch (← parseStr v))
  let dirty ← match lookupKey raw "is_dirty" with
    | none => pure false
    | some v => parseBool v
  let hash ← match lookupKey raw "commit_hash" with
    | none => pure ""
    | some v => do pure (validate_commit_hash (← parseStr v))
  let files ← match lookupKey raw "untracked_files" with
    | none => pure []
    | some v => do pure (validate_untracked_files (← parseListStr v))
  let count ← match lookupKey raw "commit_count" with
    | none => pure 0
    | some v => do
      let n ← parseInt v
      if n < 0 then throw "input should be greater than or equal to 0"
      else pure n
  let remote ← match lookupKey raw "remote_url" with
    | none => pure none
    | some v => parseOptStr v
  pure ⟨igr, branch, dirty, hash, files, count, remote⟩

/-- Python `repr` of the argument values that reach the cache key
(string escaping is not modelled: the repository only passes flags,
paths and the instance itself).  An object with no custom `__repr__`,
such as a `GitOperations` instance, prints as
`<... object at 0x...>`, identity-based and unrelated to `repo_path`. -/
def pyRepr : PyVal → List Char
  | .vStr s => '\'' :: (s.data ++ ['\''])
  | .vInt n => (toString n).data
  | .vBool b => if b then "True".data else "False".data
  | .vNone => "None".data
  | .vList xs => '[' :: (pyReprStrItems xs ++ [']'])
  | .vInst addr => "<duggerlink.git.operations.GitOperations object at 0x".data
      ++ (addr ++ ['>'])
where
  /-- comma-separated `repr`s of a list of strings -/
  pyReprStrItems : List String → List Char
    | [] => []
    | [x] => '\'' :: (x.data ++ ['\''])
    | x :: rest => '\'' :: (x.data ++ ['\'', ',', ' ']) ++ pyReprStrItems rest

/-- Python `str(args)` for the positional-argument tuple: `"()"`,
`"(x,)"`, or `"(x, y, ...)"`. -/
def pyReprTuple : List PyVal → List Char
  | [] => "()".data
  | [x] => '(' :: (pyRepr x ++ [',', ')'])
  | x :: rest => '(' :: (pyRepr x ++ [',', ' '] ++ pyReprTupleTail rest)
where
  pyReprTupleTail : List PyVal → List Char
    | [] => [')']
    | [x] => pyRepr x ++ [')']
    | x :: rest => pyRepr x ++ [',', ' '] ++ pyReprTupleTail rest

/-- `sorted(kwargs.items())`: ascending insertion sort on the keyword
names (dict keys are distinct). -/
def insertByKey (p : String × PyVal) : List (String × PyVal) → List (String × PyVal)
  | [] => [p]
  | q :: rest => if p.1 ≤ q.1 then p :: q :: rest else q :: insertByKey p rest

/-- `sorted(kwargs.items())`. -/
def sortByKey : List (String × PyVal) → List (String × PyVal)
  | [] => []
  | p :: rest => insertByKey p (sortByKey rest)

/-- Python `str` of a list of `(name, value)` pairs, as produced by
`str(sorted(kwargs.items()))`. -/
def pyReprKwList : List (String × PyVal) → List Char
  | [] => "[]".data
  | items => '[' :: (pyReprKwItems items ++ [']'])
where
  pyReprKwItems : List (String × PyVal) → List Char
    | [] => []
    | [p] => '(' :: '\'' :: (p.1.data ++ ['\'', ',', ' '] ++ pyRepr p.2 ++ [')'])
    | p :: rest => '(' :: '\'' :: (p.1.data ++ ['\'', ',', ' '] ++ pyRepr p.2 ++ [')', ',', ' '])
        ++ pyReprKwItems rest

/-- The `ttl_cache` wrapper's cache key:
`str(args) + str(sorted(kwargs.items()))`. -/
def make_key (args : List PyVal) (kwargs : List (String × PyVal)) : List Char :=
  pyReprTuple args ++ pyReprKwList (sortByKey kwargs)

/-- One cache entry: key, cached value, timestamp of computation
(the wrapper keeps two dicts, `cache` and `timestamps`, updated in
lockstep on the same key; they are modelled as one association list). -/
abbrev CacheStore (α : Type) : Type := List (List Char × α × ℚ)

/-- Dict lookup on the cache store. -/
def cacheFind {α : Type} (st : CacheStore α) (k : List Char) : Option (α × ℚ) :=
  match st.find? (fun e => e.1 == k) with
  | some e => some e.2
  | none => none

/-- Dict assignment `cache[key] = v; timestamps[key] = t` (overwrites an
existing binding, else appends). -/
def cacheStore {α : Type} : CacheStore α → List Char → α → ℚ → CacheStore α
  | [], k, v, t => [(k, v, t)]
  | e :: rest, k, v, t =>
    if e.1 = k then (k, v, t) :: rest else e :: cacheStore rest k v t

/-- Result of one pass through the `ttl_cache` wrapper body. -/
structure TtlOutcome (α : Type) where
  result : α
  invoked : Bool
  state : CacheStore α
deriving DecidableEq

/-- The `ttl_cache` wrapper body: if the key is cached and
`now - timestamps[key] < ttl_seconds`, return the cached value without
invoking the producer; else invoke it (`fresh` is the value the
producer returns on this invocation) and overwrite value and
timestamp. -/
def ttl_cache_call {α : Type} (ttl : ℚ) (fresh : α) (key : List Char)
    (now : ℚ) (st : CacheStore α) : TtlOutcome α :=
  match cacheFind st key with
  | some (v, ts) =>
    if now - ts < ttl then ⟨v, false, st⟩
    else ⟨fresh, true, cacheStore st key fresh now⟩
  | none => ⟨fresh, true, cacheStore st key fresh now⟩

/-- A live `GitOperations` object: its `repo_path` attribute and the
identity text that CPython's default `repr` embeds for it (distinct
simultaneously-live objects have distinct identities). -/
structure GitOperationsObj where
  repo_path : String
  addr : List Char
deriving DecidableEq

/-- Cache key of a no-extra-argument memoized method call such as
`self.get_untracked_files()`: `args = (self,)`, `kwargs = {}`. -/
def methodCacheKey (self : GitOperationsObj) : List Char :=
  make_key [.vInst self.addr] []

/-! ### Concrete environments used by the claims -/

/-- A path that exists and is not inside any Git repository, with the
git binary installed: every git invocation completes with exit status
128 and empty stdout (`check=False`, so nothing raises). -/
def nonRepoProbeEnv : GitEnv := fun _ =>
  .ok ⟨128, "", "fatal: not a git repository (or any of the parent directories): .git"⟩

/-- A repository whose working tree contains exactly one untracked file
`new.txt` and which has no commits yet: the probe and the status
commands succeed (porcelain output `?? new.txt`), while every
`HEAD`-based query exits 128 with empty stdout, and no remote is
configured. -/
def oneUntrackedNoCommitsEnv : GitEnv := fun args =>
  if args = ["rev-parse", "--git-dir"] then .ok ⟨0, ".git\n", ""⟩
  else if args = ["status", "--porcelain"] then .ok ⟨0, "?? new.txt\n", ""⟩
  else if args = ["status", "--porcelain", "--untracked-files=normal"] then
    .ok ⟨0, "?? new.txt\n", ""⟩
  else if args = ["status", "--porcelain", "--untracked-files=no"] then .ok ⟨0, "", ""⟩
  else .ok ⟨128, "", "fatal: ambiguous argument HEAD"⟩

/-! ### Theorems -/

/-- C1.  `is_git_repository()` never raises (it is a total function of
the environment here), but on a path that is *not* a repository — git
runs and the probe exits 128 — it returns `True`, not `False`:
`_run_command` is called with `check=False`, so the failed probe never
raises and the exit status is never inspected.  The claim (and the
method's own docstring, "True if path is a Git repository, False
otherwise") say it must return false on any failure of the probe. -/
theorem c1_probe_failure_returns_true :
    is_git_repository nonRepoProbeEnv = true := rfl

/-- C3.  On the same non-repository path, `get_git_summary()` does not
short-circuit (because `is_git_repository()` wrongly returned `True`)
and returns `is_git_repo = True` with a degraded `branch = ""` — not
the fixed record `{is_git_repo: false, branch: "none", ...}` the claim
requires. -/
theorem c3_summary_on_non_repository :
    get_git_summary nonRepoProbeEnv =
      [("is_git_repo", .vBool true),
       ("branch", .vStr ""),
       ("is_dirty", .vBool false),
       ("commit_hash", .vStr ""),
       ("untracked_files", .vList []),
       ("commit_count", .vInt 0),
       ("remote_url", .vNone)] ∧
    get_git_summary nonRepoProbeEnv ≠
      [("is_git_repo", .vBool false),
       ("branch", .vStr "none"),
       ("is_dirty", .vBool false),
       ("commit_hash", .vStr ""),
       ("untracked_files", .vList []),
       ("commit_count", .vInt 0),
       ("remote_url", .vNone)] :=
  ⟨rfl, by decide⟩

/-- C2 counterexample.  In the repository with exactly one untracked
file `new.txt` and no commits, `is_dirty()` with its default argument
(`untracked_files=True`) sees the non-empty porcelain output
`?? new.txt` and returns `True` — the claim asserts it returns
false. -/
theorem c2_is_dirty_not_false :
    ¬ (is_dirty oneUntrackedNoCommitsEnv true = false) := by decide

/-- C2 amended.  Same scenario: `commitCount()` = 0, `untrackedFiles()`
= `["new.txt"]`, `has_changes()` on the resulting state is true — but
`isDirty()` with its default argument is *true*, because the default
counts untracked files. -/
theorem c2_scenario_amended :
    get_commit_count oneUntrackedNoCommitsEnv = 0 ∧
    is_dirty oneUntrackedNoCommitsEnv true = true ∧
    get_untracked_files oneUntrackedNoCommitsEnv = ["new.txt"] ∧
    mkGitState (get_git_summary oneUntrackedNoCommitsEnv) =
      Except.ok ⟨true, "", true, "", ["new.txt"], 0, none⟩ ∧
    GitState.has_changes ⟨true, "", true, "", ["new.txt"], 0, none⟩ = true :=
  ⟨rfl, rfl, rfl, rfl, rfl⟩

/-- C6.  On every execution path — the probe-failure short-circuit and
the full path alike — the summary mapping has exactly the seven keys
`is_git_repo, branch, is_dirty, commit_hash, untracked_files,
commit_count, remote_url`, in this order. -/
theorem c6_summary_key_set (env : GitEnv) :
    (get_git_summary env).map Prod.fst =
      ["is_git_repo", "branch", "is_dirty", "commit_hash",
       "untracked_files", "commit_count", "remote_url"] := by
  unfold get_git_summary
  split <;> rfl

/-- C8.  `validate_commit_hash` returns the empty string unless the
input has length ≥ 7 and consists only of hexadecimal characters, and
on a valid input returns its lower-cased form. -/
theorem c8_commit_hash_normalization (s : String) :
    validate_commit_hash s =
      if 7 ≤ s.length ∧ s.data.all isHexCharPy then pyLower s else "" := by
  unfold validate_commit_hash
  by_cases hs : s = ""
  · subst hs
    simp
  · simp [hs]

/-- The spec's classification rule, for refinement comparison: a line is
untracked iff its first two characters equal `"??"`. -/
def specIsUntracked (line : String) : Bool :=
  line.take 2 = "??"

/-- The spec's entry rule, for refinement comparison: the remaining text
after stripping the two-character marker and surrounding whitespace. -/
def specUntrackedEntry (line : String) : String :=
  pyStrip (line.drop 2)

/-- C7 counterexample.  On the status line `"??foo.txt"` both the claim
and the code classify the line as untracked (its first two characters
are `"??"`), but the code slices three characters off
(`line.strip()[3:]`), producing the entry `"oo.txt"`, while the claim's
rule — strip the two-character marker and surrounding whitespace —
gives `"foo.txt"`. -/
theorem c7_entry_rule_counterexample :
    specIsUntracked "??foo.txt" = true ∧
    parseUntracked "??foo.txt" = ["oo.txt"] ∧
    specUntrackedEntry "??foo.txt" = "foo.txt" ∧
    ("oo.txt" : String) ≠ "foo.txt" :=
  ⟨rfl, rfl, rfl, by decide⟩

/-- C7 amended.  For every status output: a line is classified as
untracked exactly when its *stripped* form is non-empty and starts with
`"??"`, and the entry produced is the stripped line with its first
*three* characters removed and surrounding whitespace stripped again. -/
theorem c7_untracked_line_classification (stdout : String) :
    parseUntracked stdout =
      ((splitLines stdout).filter
          (fun l => !(pyStripList l).isEmpty &&
            ['?', '?'].isPrefixOf (pyStripList l))).map
        (fun l => String.mk (pyStripList ((pyStripList l).drop 3))) := by
  unfold parseUntracked
  induction splitLines stdout with
  | nil => rfl
  | cons line rest ih =>
    by_cases hline : ¬ (pyStripList line).isEmpty ∧ ['?', '?'].isPrefixOf (pyStripList line)
    · simp only [untrackedLoop, if_pos hline, List.filter_cons,
        hline.1, hline.2, Bool.not_eq_true', Bool.and_eq_true, ih, List.map_cons]
      simp [hline.1, hline.2]
    · simp only [untrackedLoop, if_neg hline, List.filter_cons, ih]
      have : (!(pyStripList line).isEmpty && ['?', '?'].isPrefixOf (pyStripList line)) = false := by
        rcases not_and_or.mp hline with h | h
        · simp [Bool.not_eq_true] at h
          simp [h]
        · simp [h]
      simp [this]

/-- C4 counterexample.  A summary carrying `commit_count = -1` is not
degraded to the safe default 0: construction is rejected with a
validation error (`Field(ge=0)`), so the model layer *does* reject a
summary outright.  (An unexpected key is likewise rejected by
`extra="forbid"`.) -/
theorem c4_negative_count_rejected :
    mkGitState [("commit_count", PyVal.vInt (-1))] =
      Except.error "input should be greater than or equal to 0" ∧
    mkGitState [("unexpected", PyVal.vInt 0)] =
      Except.error "extra inputs are not permitted" :=
  ⟨rfl, rfl⟩

/-- C4 amended.  Only the string normalizers degrade silently: for every
well-shaped summary (each field of its declared type, `commit_count ≥
0`, no unexpected key) construction succeeds, with an invalid
`commit_hash` degraded to `""`, `branch` trimmed (`"HEAD"` →
`"detached"`), and untracked entries trimmed with empties dropped;
wrong-shaped values, a negative `commit_count`, or an unexpected key
are rejected with a validation error instead. -/
theorem c4_wellshaped_construction (b1 b2 : Bool) (br hash : String)
    (files : List String) (n : Int) (url : Option String) (h : 0 ≤ n) :
    mkGitState
      [("is_git_repo", .vBool b1),
       ("branch", .vStr br),
       ("is_dirty", .vBool b2),
       ("commit_hash", .vStr hash),
       ("untracked_files", .vList files),
       ("commit_count", .vInt n),
       ("remote_url", match url with | some u => .vStr u | none => .vNone)] =
      Except.ok ⟨b1, validate_branch br, b2, validate_commit_hash hash,
                 validate_untracked_files files, n, url⟩ := by
  have hn : ¬ (n < 0) := not_lt.mpr h
  cases url <;>
    simp [mkGitState, lookupKey, gitStateKeys, parseBool, parseStr,
      parseListStr, parseOptStr, parseInt, bind, Except.bind, pure, Except.pure, hn]

/-- C4 witness: a concrete well-shaped summary, with an upper-case hash
and a padded untracked entry, constructs successfully with the
normalized field values. -/
theorem c4_wellshaped_construction_witness :
    mkGitState
      [("is_git_repo", .vBool true),
       ("branch", .vStr "HEAD"),
       ("is_dirty", .vBool false),
       ("commit_hash", .vStr "ABC123d"),
       ("untracked_files", .vList ["  a.txt  ", ""]),
       ("commit_count", .vInt 5),
       ("remote_url", .vNone)] =
      Except.ok ⟨true, "detached", false, "abc123d", ["a.txt"], 5, none⟩ := by
  have h := c4_wellshaped_construction true false "HEAD" "ABC123d"
    ["  a.txt  ", ""] 5 none (by norm_num)
  simpa using h

/-- After a store, looking the same key up yields the stored value and
timestamp (dict overwrite semantics). -/
theorem cacheFind_store_self {α : Type} (st : CacheStore α) (k : List Char)
    (v : α) (t : ℚ) : cacheFind (cacheStore st k v t) k = some (v, t) := by
  induction st with
  | nil => simp [cacheStore, cacheFind]
  | cons e rest ih =>
    by_cases he : e.1 = k
    · simp [cacheStore, he, cacheFind]
    · simpa [cacheStore, he, cacheFind, List.find?] using ih

/-- C5.  Starting from a state with no entry for the key: the first
invocation at time `t1` invokes the producer and returns its value
`v1`; a second invocation at `t1 + d` with the same key returns the
cached `v1` without invoking the producer and leaves the store
untouched when `d < ttl`, and when `ttl ≤ d` invokes the producer
again, returns its fresh value `v2`, and overwrites the entry's value
and timestamp with `(v2, t1 + d)`. -/
theorem c5_ttl_expiry {α : Type} (ttl d t1 : ℚ) (k : List Char) (v1 v2 : α)
    (st0 : CacheStore α) (h0 : cacheFind st0 k = none) :
    (ttl_cache_call ttl v1 k t1 st0).invoked = true ∧
    (ttl_cache_call ttl v1 k t1 st0).result = v1 ∧
    (d < ttl →
      (ttl_cache_call ttl v2 k (t1 + d) (ttl_cache_call ttl v1 k t1 st0).state).result = v1 ∧
      (ttl_cache_call ttl v2 k (t1 + d) (ttl_cache_call ttl v1 k t1 st0).state).invoked = false ∧
      (ttl_cache_call ttl v2 k (t1 + d) (ttl_cache_call ttl v1 k t1 st0).state).state =
        (ttl_cache_call ttl v1 k t1 st0).state) ∧
    (ttl ≤ d →
      (ttl_cache_call ttl v2 k (t1 + d) (ttl_cache_call ttl v1 k t1 st0).state).invoked = true ∧
      (ttl_cache_call ttl v2 k (t1 + d) (ttl_cache_call ttl v1 k t1 st0).state).result = v2 ∧
      cacheFind (ttl_cache_call ttl v2 k (t1 + d) (ttl_cache_call ttl v1 k t1 st0).state).state k =
        some (v2, t1 + d)) := by
  have hfirst : ttl_cache_call ttl v1 k t1 st0 = ⟨v1, true, cacheStore st0 k v1 t1⟩ := by
    simp [ttl_cache_call, h0]
  have hfind : cacheFind (ttl_cache_call ttl v1 k t1 st0).state k = some (v1, t1) := by
    rw [hfirst]
    exact cacheFind_store_self st0 k v1 t1
  have hdelta : t1 + d - t1 = d := by ring
  refine ⟨by rw [hfirst], by rw [hfirst], ?_, ?_⟩
  · intro hhit
    have hsecond : ttl_cache_call ttl v2 k (t1 + d) (cacheStore st0 k v1 t1) =
        ⟨v1, false, cacheStore st0 k v1 t1⟩ := by
      unfold ttl_cache_call
      rw [cacheFind_store_self]
      simp [hdelta, hhit]
    rw [hfirst]
    show (ttl_cache_call ttl v2 k (t1 + d) (cacheStore st0 k v1 t1)).result = v1 ∧ _ ∧ _
    rw [hsecond]
    exact ⟨rfl, rfl, rfl⟩
  · intro hmiss
    have hsecond : ttl_cache_call ttl v2 k (t1 + d) (cacheStore st0 k v1 t1) =
        ⟨v2, true, cacheStore (cacheStore st0 k v1 t1) k v2 (t1 + d)⟩ := by
      unfold ttl_cache_call
      rw [cacheFind_store_self]
      simp [hdelta, not_lt.mpr hmiss]
    rw [hfirst]
    show (ttl_cache_call ttl v2 k (t1 + d) (cacheStore st0 k v1 t1)).invoked = true ∧ _ ∧ _
    rw [hsecond]
    exact ⟨rfl, rfl, cacheFind_store_self _ k v2 (t1 + d)⟩

/-- C5 witness: ttl 30, producer values 1 then 2, first call at time 0,
second call at time 0 + 10 < 30: the cached 1 is returned, the producer
is not invoked, and the store is unchanged. -/
theorem c5_ttl_expiry_witness :
    (ttl_cache_call 30 2 ['k'] (0 + 10) (ttl_cache_call 30 (1 : ℕ) ['k'] 0 []).state).result = 1 ∧
    (ttl_cache_call 30 2 ['k'] (0 + 10) (ttl_cache_call 30 (1 : ℕ) ['k'] 0 []).state).invoked = false ∧
    (ttl_cache_call 30 2 ['k'] (0 + 10) (ttl_cache_call 30 (1 : ℕ) ['k'] 0 []).state).state =
      (ttl_cache_call 30 (1 : ℕ) ['k'] 0 []).state :=
  (c5_ttl_expiry 30 10 0 ['k'] 1 2 [] rfl).2.2.1 (by norm_num)

/-- Two character lists that agree on a prefix `p ++ [c]` and then
differ at the next character are distinct. -/
theorem append_cons_cons_ne (p : List Char) (c a b : Char) (x y : List Char)
    (hab : a ≠ b) : p ++ c :: a :: x ≠ p ++ c :: b :: y := by
  intro h
  have h1 := List.append_cancel_left h
  injection h1 with _ h2
  injection h2 with h3 _
  exact hab h3

/-- Shape of the cache key of a two-positional-argument call
`f(s, v)` : `str((s, v)) + str([])`. -/
theorem make_key_two_positional (s v : PyVal) :
    make_key [s, v] [] =
      ('(' :: pyRepr s) ++ ',' :: ' ' :: (pyRepr v ++ [')', '[', ']']) := by
  simp [make_key, pyReprTuple, pyReprTuple.pyReprTupleTail, pyReprKwList, sortByKey]

/-- Shape of the cache key of the equivalent keyword call
`f(s, name=v)` : `str((s,)) + str([(name, v)])`. -/
theorem make_key_one_positional_one_kw (s v : PyVal) (name : String) :
    make_key [s] [(name, v)] =
      ('(' :: pyRepr s) ++ ',' :: ')' ::
        ('[' :: '(' :: '\'' :: (name.data ++ ['\'', ',', ' '] ++ pyRepr v ++ [')', ']'])) := by
  simp [make_key, pyReprTuple, pyReprKwList, pyReprKwList.pyReprKwItems,
    sortByKey, insertByKey]

/-- C9.  The key of a call passing a value positionally differs from
the key of the equivalent call passing it as a keyword (whatever the
instance `s`, the value `v` and the parameter name), so the two calls
use different cache entries: a keyword call finds nothing under the
positional call's entry and re-invokes the producer even immediately
after the positional call cached its result. -/
theorem c9_positional_keyword_distinct_entries (s v : PyVal) (name : String)
    (ttl t1 t2 : ℚ) (r1 r2 : ℕ) :
    make_key [s, v] [] ≠ make_key [s] [(name, v)] ∧
    (ttl_cache_call ttl r2 (make_key [s] [(name, v)]) t2
        (ttl_cache_call ttl r1 (make_key [s, v] []) t1 []).state).invoked = true := by
  have hne : make_key [s, v] [] ≠ make_key [s] [(name, v)] := by
    rw [make_key_two_positional, make_key_one_positional_one_kw]
    exact append_cons_cons_ne _ ',' ' ' ')' _ _ (by decide)
  refine ⟨hne, ?_⟩
  have hfirst : ttl_cache_call ttl r1 (make_key [s, v] []) t1 [] =
      ⟨r1, true, [(make_key [s, v] [], r1, t1)]⟩ := by
    simp [ttl_cache_call, cacheFind, cacheStore]
  rw [hfirst]
  have hbeq : (make_key [s, v] [] == make_key [s] [(name, v)]) = false :=
    beq_eq_false_iff_ne.mpr hne
  have hfind : cacheFind [(make_key [s, v] [], r1, t1)] (make_key [s] [(name, v)]) = none := by
    simp [cacheFind, List.find?, hbeq]
  unfold ttl_cache_call
  rw [hfind]

/-- C10.  The memoized method key is the string form of `(self,)`:
it embeds the instance's identity text and mentions `repo_path`
nowhere.  Hence the key is unchanged when only the path differs, and
two simultaneously-live instances — which have distinct identities,
even when built for the same path — get distinct keys: a second
instance's call finds nothing under the first instance's entry and
re-invokes the producer. -/
theorem c10_distinct_instances_distinct_entries (o1 o2 : GitOperationsObj)
    (h : o1.addr ≠ o2.addr) (ttl t1 t2 : ℚ) (r1 r2 : ℕ) :
    (∀ p1 p2 : String, methodCacheKey ⟨p1, o1.addr⟩ = methodCacheKey ⟨p2, o1.addr⟩) ∧
    methodCacheKey o1 ≠ methodCacheKey o2 ∧
    (ttl_cache_call ttl r2 (methodCacheKey o2) t2
        (ttl_cache_call ttl r1 (methodCacheKey o1) t1 []).state).invoked = true := by
  have hshape : ∀ o : GitOperationsObj, methodCacheKey o =
      ('(' :: "<duggerlink.git.operations.GitOperations object at 0x".data) ++
        (o.addr ++ ['>', ',', ')', '[', ']']) := by
    intro o
    simp [methodCacheKey, make_key, pyReprTuple, pyRepr, pyReprKwList, sortByKey]
  have hne : methodCacheKey o1 ≠ methodCacheKey o2 := by
    rw [hshape o1, hshape o2]
    intro hk
    have h1 := List.append_cancel_left hk
    have h2 := List.append_cancel_right h1
    exact h h2
  refine ⟨fun p1 p2 => rfl, hne, ?_⟩
  have hfirst : ttl_cache_call ttl r1 (methodCacheKey o1) t1 [] =
      ⟨r1, true, [(methodCacheKey o1, r1, t1)]⟩ := by
    simp [ttl_cache_call, cacheFind, cacheStore]
  rw [hfirst]
  have hbeq : (methodCacheKey o1 == methodCacheKey o2) = false :=
    beq_eq_false_iff_ne.mpr hne
  have hfind : cacheFind [(methodCacheKey o1, r1, t1)] (methodCacheKey o2) = none := by
    simp [cacheFind, List.find?, hbeq]
  unfold ttl_cache_call
  rw [hfind]

/-- C10 witness: two instances for the same path `"/repo"` with
distinct identity texts have distinct method cache keys. -/
theorem c10_distinct_instances_witness :
    methodCacheKey ⟨"/repo", "7f01".data⟩ ≠ methodCacheKey ⟨"/repo", "7f02".data⟩ :=
  (c10_distinct_instances_distinct_entries ⟨"/repo", "7f01".data⟩ ⟨"/repo", "7f02".data⟩
    (by decide) 30 0 5 1 2).2.1

end Dugger
